import Mathlib

/-!
Shallow embedding of the OnTrack server-side caching core:
the TDX token broker (`api/_utils/tdx.ts`), the schedule endpoint handler
with its timetable cache and delay cache (`api/schedule.ts`, current
revision), and the stations endpoint handler (`api/stations.ts`).

Timestamps are JS `Date.now()` millisecond values, modelled as `Int`
(the arithmetic involved is integral and exact in JS doubles).
Thrown JS `Error` values are modelled by their `message` string.
-/

namespace OnTrack

/-- JS truthiness for a `string | null | undefined` value: `null`/`undefined`
and the empty string are falsy. -/
def jsTruthy : Option String → Bool
  | none => false
  | some s => s ≠ ""

/-- Models the JS idiom `x || null` (and `x || undefined`) on a
`string | null` value: an empty string collapses to "absent". -/
def jsStrOrNone (o : Option String) : Option String :=
  if jsTruthy o then o else none

/-- JS `Map.set` on a string-keyed map modelled as an association list:
replaces the value of an existing key in place, otherwise appends. -/
def jsMapSet {α : Type} (m : List (String × α)) (k : String) (v : α) :
    List (String × α) :=
  if m.any (fun p => p.1 == k) then
    m.map (fun p => if p.1 == k then (k, v) else p)
  else m ++ [(k, v)]

/-! ## Credential broker (`api/_utils/tdx.ts`, `getAccessToken`) -/

/-- The module-level token slot of `tdx.ts`:
`let cachedToken: string | null = null; let tokenExpiresAt: number = 0`. -/
structure TokenState where
  cachedToken : Option String
  tokenExpiresAt : Int
deriving Repr, DecidableEq

/-- Outcome of the OAuth token exchange POST, were it to be issued:
either a 200 with `{access_token, expires_in}` (seconds), or a
non-ok status (the code logs and falls back to visitor mode). -/
inductive TokenExchange where
  | ok (access_token : String) (expires_in : Int)
  | httpError
deriving Repr, DecidableEq

/-- `getAccessToken` from `api/_utils/tdx.ts`.  Returns the token handed to
the caller, the new token slot, and whether a network call was made.
Source:
  `if (cachedToken && now < tokenExpiresAt) return cachedToken;`
  `if (!CLIENT_ID || !CLIENT_SECRET) return null;`
  on non-ok: warn and `return null`;
  on ok: `tokenExpiresAt = now + data.expires_in * 1000 - 60000`. -/
def getAccessToken (clientId clientSecret : Option String)
    (tex : TokenExchange) (now : Int) (st : TokenState) :
    Option String × TokenState × Bool :=
  if jsTruthy st.cachedToken ∧ now < st.tokenExpiresAt then
    (st.cachedToken, st, false)
  else if ¬ jsTruthy clientId ∨ ¬ jsTruthy clientSecret then
    (none, st, false)
  else
    match tex with
    | .httpError => (none, st, true)
    | .ok tok expires_in =>
        (some tok, ⟨some tok, now + expires_in * 1000 - 60000⟩, true)

/-! ## Delay cache (`api/schedule.ts`, current revision, lines 14-22 and 102-166) -/

/-- `Map<string, number>` of train number to delay minutes, modelled as an
association list in JS `Map` insertion order. -/
abbrev DelayMap : Type := List (String × Int)

/-- One element of `TrainLiveBoards` / `TrainLiveBoardList` in the
TrainLiveBoard response body; `DelayTime` may be absent. -/
structure LiveEntry where
  TrainNo : String
  DelayTime : Option Int
deriving Repr, DecidableEq

/-- The parsed TrainLiveBoard response body.  The handler reads
`response.data.TrainLiveBoards || response.data.TrainLiveBoardList || []`,
so both array fields are optional. -/
structure LiveBoardResp where
  TrainLiveBoards : Option (List LiveEntry)
  TrainLiveBoardList : Option (List LiveEntry)
deriving Repr, DecidableEq

/-- The module-level `delayCache` entry:
`{ data: Map<string, number>; lastModified: string | null; expires: number }`. -/
structure DelayEntry where
  data : DelayMap
  lastModified : Option String
  expires : Int
deriving Repr, DecidableEq

/-- `const DELAY_CACHE_MIN_TTL = 5 * 60 * 1000` (5 minutes). -/
def DELAY_CACHE_MIN_TTL : Int := 5 * 60 * 1000

/-- What the upstream TrainLiveBoard endpoint would do if called:
answer 304 Not Modified, answer 200 with a body and an optional
`Last-Modified` header, or fail (a non-ok status or a network error,
both of which make `fetchTDXWithCache` throw an `Error`). -/
inductive ServerBehavior where
  | notModified304
  | okResp (body : LiveBoardResp) (lastModifiedHeader : Option String)
  | throwErr (msg : String)
deriving Repr, DecidableEq

/-- The `TDXResponse<T>` record returned by `fetchTDXWithCache`. -/
structure DelayTDXResponse where
  data : Option LiveBoardResp
  lastModified : Option String
  notModified : Bool
deriving Repr, DecidableEq

/-- `fetchTDXWithCache` from `api/_utils/tdx.ts`, as observed by the schedule
handler: on 304 it returns `{data: null, lastModified: ifModifiedSince || null,
notModified: true}`; on 200 it returns the body and the `Last-Modified`
header; on any other status or a network error it throws. -/
def fetchTDXWithCache (ifModifiedSince : Option String) (sb : ServerBehavior) :
    Except String DelayTDXResponse :=
  match sb with
  | .notModified304 => .ok ⟨none, jsStrOrNone ifModifiedSince, true⟩
  | .okResp body lm => .ok ⟨some body, lm, false⟩
  | .throwErr m => .error m

/-- The `ifModifiedSince` option the handler passes on a revalidation call:
`delayCache?.lastModified || undefined` (line 123). -/
def delayIfModHeader (dc : Option DelayEntry) : Option String :=
  jsStrOrNone (dc.bind DelayEntry.lastModified)

/-- Builds the fresh delay map (lines 135-145):
`liveData.forEach(d => delayMap.set(d.TrainNo, d.DelayTime ?? 0))`. -/
def buildDelayMap (live : List LiveEntry) : DelayMap :=
  live.foldl (fun m d => jsMapSet m d.TrainNo (d.DelayTime.getD 0)) []

/-- The revalidation path of the delay-cache section (lines 112-165): the
conditional fetch plus the `notModified` / fresh-data / fallback / catch
branches.  Returns the delay map served to this request, the new
`delayCache`, and `true` because an upstream call was attempted. -/
def delayFetch (dc : Option DelayEntry) (now : Int) (sb : ServerBehavior) :
    DelayMap × Option DelayEntry × Bool :=
  match fetchTDXWithCache (delayIfModHeader dc) sb with
  | .error _ =>
      -- catch: `delayMap = delayCache?.data || new Map()` and no cache write
      ((dc.map DelayEntry.data).getD [], dc, true)
  | .ok r =>
      match dc, r.notModified with
      | some e, true =>
          -- `if (response.notModified && delayCache)`: reuse data, extend TTL
          (e.data, some { e with expires := now + DELAY_CACHE_MIN_TTL }, true)
      | _, _ =>
          match r.data with
          | some body =>
              -- `else if (response.data)`: replace the cache wholesale
              let dm := buildDelayMap
                (body.TrainLiveBoards.getD (body.TrainLiveBoardList.getD []))
              (dm, some ⟨dm, r.lastModified, now + DELAY_CACHE_MIN_TTL⟩, true)
          | none =>
              -- `else`: fall back to cached or empty
              ((dc.map DelayEntry.data).getD [], dc, true)

/-- The whole delay-cache section of the schedule handler (lines 106-166).
`if (delayCache && delayCache.expires > now)` serves the cached map with no
upstream call; otherwise the conditional fetch runs. -/
def delayStep (dc : Option DelayEntry) (now : Int) (sb : ServerBehavior) :
    DelayMap × Option DelayEntry × Bool :=
  match dc with
  | some e =>
      if now < e.expires then (e.data, some e, false)
      else delayFetch (some e) now sb
  | none => delayFetch none now sb

/-- A sequence of schedule requests as seen by the delay-cache section:
each request has an arrival time and an upstream behavior.  Returns the
final cache state and the total number of upstream TrainLiveBoard calls. -/
def delayRun : Option DelayEntry → List (Int × ServerBehavior) →
    Option DelayEntry × Nat
  | dc, [] => (dc, 0)
  | dc, r :: rest =>
      let s := delayStep dc r.1 r.2
      let tail := delayRun s.2.1 rest
      (tail.1, (if s.2.2 then 1 else 0) + tail.2)

/-! ## Timetable cache and train transformation (`api/schedule.ts`) -/

/-- A `TDXStopTime`; `StationName.Zh_tw` is flattened to one string field. -/
structure StopTime where
  StationID : String
  StationName : String
  DepartureTime : String
  ArrivalTime : String
deriving Repr, DecidableEq

/-- The `TrainInfo` part of a `TDXFullTimetable`;
`TrainTypeName.Zh_tw` is flattened to one string field. -/
structure TDXTrainInfo where
  TrainNo : String
  TrainTypeName : String
  Direction : Int
deriving Repr, DecidableEq

/-- A `TDXFullTimetable` entry of the daily timetable. -/
structure TDXFullTimetable where
  TrainInfo : TDXTrainInfo
  StopTimes : List StopTime
deriving Repr, DecidableEq

/-- The parsed DailyTrainTimetable response object; the handler reads
`allTrains.TrainTimetables || []`, so the field is optional. -/
structure TimetableResp where
  TrainTimetables : Option (List TDXFullTimetable)
deriving Repr, DecidableEq

/-- One `timetableCache` value: `{ data; expires: number }`. -/
structure TimetableEntry where
  data : TimetableResp
  expires : Int
deriving Repr, DecidableEq

/-- `const TIMETABLE_CACHE_TTL = 60 * 60 * 1000` (1 hour). -/
def TIMETABLE_CACHE_TTL : Int := 60 * 60 * 1000

/-- The miss path of the timetable-cache step: `fetchTDX` (which may throw,
propagating to the handler's outer catch) followed by `timetableCache.set`. -/
def timetableMiss (cache : List (String × TimetableEntry)) (key : String)
    (now : Int) (fetch : Except String TimetableResp) :
    Except String (TimetableResp × List (String × TimetableEntry) × Bool) :=
  match fetch with
  | .error m => .error m
  | .ok data => .ok (data, jsMapSet cache key ⟨data, now + TIMETABLE_CACHE_TTL⟩, true)

/-- The timetable-cache section of the schedule handler (lines 85-100):
`const cached = timetableCache.get(cacheKey); if (cached && cached.expires
> now)` serve it, else fetch and store.  Returns the timetable served, the
new cache, and whether `fetchTDX` was invoked. -/
def timetableStepE (cache : List (String × TimetableEntry)) (key : String)
    (now : Int) (fetch : Except String TimetableResp) :
    Except String (TimetableResp × List (String × TimetableEntry) × Bool) :=
  match cache.lookup key with
  | some e =>
      if now < e.expires then .ok (e.data, cache, false)
      else timetableMiss cache key now fetch
  | none => timetableMiss cache key now fetch

/-- The train status union `'on-time' | 'delayed' | 'cancelled' | 'unknown'`. -/
inductive TrainStatus where
  | onTime
  | delayed
  | cancelled
  | unknown
deriving Repr, DecidableEq

/-- The `AppTrainInfo` record built for each train of the response. -/
structure AppTrainInfo where
  trainNo : String
  trainType : String
  direction : Int
  originStation : String
  destinationStation : String
  departureTime : String
  arrivalTime : String
  delay : Int
  status : TrainStatus
deriving Repr, DecidableEq

/-- The per-train `map` callback (lines 177-214).  In the source,
`stops.indexOf(originStop)` is the index at which `stops.find(...)` located
`originStop` — `indexOf` compares by object identity and `originStop` is the
first element satisfying the predicate — so it equals `findIdx` of the same
predicate, and likewise for `destStop`. -/
def transformTrain (origin dest : String) (dm : DelayMap)
    (t : TDXFullTimetable) : Option AppTrainInfo :=
  let stops := t.StopTimes
  match stops.find? (fun s => s.StationID == origin),
        stops.find? (fun s => s.StationID == dest) with
  | some originStop, some destStop =>
      let originIdx := stops.findIdx (fun s => s.StationID == origin)
      let destIdx := stops.findIdx (fun s => s.StationID == dest)
      -- `if (destIdx <= originIdx) return null` (wrong direction)
      if destIdx ≤ originIdx then none
      else
        let delay := dm.lookup t.TrainInfo.TrainNo
        some {
          trainNo := t.TrainInfo.TrainNo
          trainType := t.TrainInfo.TrainTypeName
          direction := t.TrainInfo.Direction
          originStation := originStop.StationName
          destinationStation := destStop.StationName
          departureTime := originStop.DepartureTime
          arrivalTime := destStop.ArrivalTime
          -- `delay: delay || 0`
          delay := delay.getD 0
          -- `unknown` when absent, else `delay > 0 ? 'delayed' : 'on-time'`
          status := match delay with
            | none => TrainStatus.unknown
            | some d2 => if 0 < d2 then TrainStatus.delayed else TrainStatus.onTime }
  | _, _ => none

/-- The `trains` array of the response (lines 176-218): map, filter out the
`null`s, then a stable sort by `departureTime` (`localeCompare` agrees with
code-point order on the `HH:MM` ASCII time strings). -/
def scheduleTrains (origin dest : String) (dm : DelayMap)
    (tts : List TDXFullTimetable) : List AppTrainInfo :=
  List.insertionSort (fun a b => a.departureTime ≤ b.departureTime)
    (tts.filterMap (transformTrain origin dest dm))

/-- Restatement of the spec sentence for the inclusion criterion, following
its words rather than the source: the stop list contains a stop whose
`StationID` equals `origin` and a stop whose `StationID` equals `dest`, with
the dest stop occurring strictly after the origin stop in the list. -/
def specTrainIncluded (origin dest : String) (stops : List StopTime) : Bool :=
  stops.enum.any (fun oi => stops.enum.any (fun dj =>
    decide (oi.1 < dj.1) && oi.2.StationID == origin && dj.2.StationID == dest))

/-! ## Parameter validation (`api/schedule.ts` lines 41-69) -/

/-- `isValidStationId`: `typeof id === 'string' && /^[A-Z0-9-]+$/i.test(id)
&& id.length <= 10`.  The regex demands one or more characters, each an ASCII
letter (either case), digit or dash. -/
def isValidStationId (s : String) : Bool :=
  s ≠ "" && s.toList.all (fun c => c.isAlphanum || c == '-') && s.length ≤ 10

/-- `isValidDate`: `/^\d{4}-\d{2}-\d{2}$/.test(date)`. -/
def isValidDate (s : String) : Bool :=
  match s.toList with
  | [y1, y2, y3, y4, h1, m1, m2, h2, d1, d2] =>
      y1.isDigit && y2.isDigit && y3.isDigit && y4.isDigit &&
      h1 == '-' && m1.isDigit && m2.isDigit && h2 == '-' &&
      d1.isDigit && d2.isDigit
  | _ => false

/-! ## The schedule endpoint handler (`api/schedule.ts`, current revision) -/

/-- The three query parameters of `GET /schedule`; a `some ""` value models a
parameter present with an empty value (`?date=`). -/
structure SchedReq where
  origin : Option String
  dest : Option String
  date : Option String
deriving Repr, DecidableEq

/-- The process-wide mutable state the schedule handler touches. -/
structure SchedState where
  timetableCache : List (String × TimetableEntry)
  delayCache : Option DelayEntry
deriving Repr, DecidableEq

deriving instance DecidableEq for Except

/-- The handler's environment: `process.env.NODE_ENV`, today's date string in
the Asia/Taipei zone (`toLocaleDateString('en-CA', ...)`), the outcome the
timetable `fetchTDX` would have, and the TrainLiveBoard upstream behavior. -/
structure SchedEnv where
  nodeEnv : String
  todayStr : String
  timetableFetch : Except String TimetableResp
  liveBoard : ServerBehavior
deriving Repr, DecidableEq

/-- The response the schedule handler sends. -/
inductive SchedResp where
  | badRequest (error : String)
  | ok (date : String) (originId : String) (destId : String)
       (trains : List AppTrainInfo)
  | serverError (error : String)
deriving Repr, DecidableEq

/-- The three early-return validation checks of the handler (lines 55-69), in
source order: `if (!origin || !dest)`, then
`if (!isValidStationId(origin) || !isValidStationId(dest))`, then
`if (date && !isValidDate(date))`.  Returns the 400 message, if any. -/
def schedValidate (req : SchedReq) : Option String :=
  if ¬ jsTruthy req.origin ∨ ¬ jsTruthy req.dest then
    some "Missing origin or dest parameters"
  else if ¬ isValidStationId (req.origin.getD "")
      ∨ ¬ isValidStationId (req.dest.getD "") then
    some "Invalid station ID format"
  else if jsTruthy req.date ∧ ¬ isValidDate (req.date.getD "") then
    some "Invalid date format. Use YYYY-MM-DD"
  else none

/-- `const queryDate = (date as string) || today` (lines 71-73). -/
def schedQueryDate (req : SchedReq) (env : SchedEnv) : String :=
  if jsTruthy req.date then req.date.getD "" else env.todayStr

/-- The resolved upstream path (lines 75-83): the `Today` alias when the query
date equals today's Taipei date, else the explicit-date path. -/
def schedUrl (req : SchedReq) (env : SchedEnv) : String :=
  if schedQueryDate req env == env.todayStr then
    "v3/Rail/TRA/DailyTrainTimetable/Today"
  else "v3/Rail/TRA/DailyTrainTimetable/TrainDate/" ++ schedQueryDate req env

/-- The schedule handler (`api/schedule.ts`, current revision).  Returns the
response, the new state, the headers set by `res.setHeader`, and the number
of upstream TDX calls made (timetable fetch plus TrainLiveBoard call). -/
def scheduleHandler (req : SchedReq) (st : SchedState) (env : SchedEnv)
    (now : Int) : SchedResp × SchedState × List (String × String) × Nat :=
  match schedValidate req with
  | some msg => (.badRequest msg, st, [], 0)
  | none =>
      match timetableStepE st.timetableCache (schedUrl req env) now
          env.timetableFetch with
      | .error m =>
          -- outer catch (lines 226-234); the only throwing call reached is
          -- the timetable `fetchTDX` (the delay fetch has its own catch)
          (.serverError (if env.nodeEnv == "development" then m
            else "Failed to fetch schedule. Please try again."), st, [], 1)
      | .ok tres =>
          let d := delayStep st.delayCache now env.liveBoard
          let headers := [("Cache-Control", "s-maxage=60, stale-while-revalidate=300")]
          let trains := scheduleTrains (req.origin.getD "") (req.dest.getD "") d.1
            (tres.1.TrainTimetables.getD [])
          (.ok (schedQueryDate req env) (req.origin.getD "") (req.dest.getD "")
            trains, ⟨tres.2.1, d.2.1⟩, headers,
           (if tres.2.2 then 1 else 0) + (if d.2.2 then 1 else 0))

/-! ## The stations endpoint handler (`api/stations.ts`) -/

/-- A `TDXStation`; the nested `StationName.{Zh_tw, En}` strings are
flattened to two fields. -/
structure TDXStation where
  StationID : String
  StationName_Zh : String
  StationName_En : String
deriving Repr, DecidableEq

/-- The client-facing station record `{id, name, nameEn}`. -/
structure Station where
  id : String
  name : String
  nameEn : String
deriving Repr, DecidableEq

/-- The module-level `stationsCache` entry of `api/stations.ts`. -/
structure StationsEntry where
  data : List TDXStation
  expires : Int
deriving Repr, DecidableEq

/-- `const CACHE_TTL = 60 * 60 * 1000` in `api/stations.ts` (1 hour). -/
def STATIONS_CACHE_TTL : Int := 60 * 60 * 1000

/-- Lines 39-45: the upstream response is a direct array
(`Array.isArray(data)` holds), mapped to `{id, name, nameEn}`. -/
def transformStations (data : List TDXStation) : List Station :=
  data.map (fun s => ⟨s.StationID, s.StationName_Zh, s.StationName_En⟩)

/-- The response the stations handler sends. -/
inductive StationsResp where
  | ok (stations : List Station)
  | serverError (error : String)
deriving Repr, DecidableEq

/-- The stations handler (`api/stations.ts`).  Returns the response, the new
cache, the headers set by `res.setHeader` (the source sets none), and
whether `fetchTDX` was invoked.  On a throw the catch responds 500 with
`error instanceof Error ? error.message : 'Unknown error'`. -/
def stationsHandler (cache : Option StationsEntry) (now : Int)
    (fetch : Except String (List TDXStation)) :
    StationsResp × Option StationsEntry × List (String × String) × Bool :=
  match cache with
  | some e =>
      if now < e.expires then (.ok (transformStations e.data), some e, [], false)
      else
        match fetch with
        | .error m => (.serverError m, some e, [], true)
        | .ok d =>
            (.ok (transformStations d), some ⟨d, now + STATIONS_CACHE_TTL⟩, [], true)
  | none =>
      match fetch with
      | .error m => (.serverError m, none, [], true)
      | .ok d =>
          (.ok (transformStations d), some ⟨d, now + STATIONS_CACHE_TTL⟩, [], true)

/-- The train used to probe the inclusion criterion: its stop list mentions
station `1008` both before and after its `1000` stop. -/
def exTrainC6 : TDXFullTimetable :=
  ⟨⟨"100", "Local", 0⟩,
   [⟨"1008", "Hsinchu", "10:00", "10:01"⟩,
    ⟨"1000", "Taipei", "10:30", "10:31"⟩,
    ⟨"1008", "Hsinchu", "11:00", "11:01"⟩]⟩

/-! ## Helper lemmas -/

/-- A warm delay cache within its interval serves the cached map and makes no
upstream call, whatever the upstream would have answered. -/
theorem delayStep_hit (e : DelayEntry) (now : Int) (sb : ServerBehavior)
    (h : now < e.expires) :
    delayStep (some e) now sb = (e.data, some e, false) := by
  simp [delayStep, h]

/-- Every branch of the revalidation path counts as an upstream call. -/
theorem delayFetch_called (dc : Option DelayEntry) (now : Int)
    (sb : ServerBehavior) : (delayFetch dc now sb).2.2 = true := by
  cases sb <;> cases dc <;> simp [delayFetch, fetchTDXWithCache]

/-- A run of requests that all arrive before the cached entry's expiry leaves
the cache untouched and makes no upstream call. -/
theorem delayRun_hits (reqs : List (Int × ServerBehavior)) (e : DelayEntry)
    (h : ∀ x ∈ reqs, x.1 < e.expires) :
    delayRun (some e) reqs = (some e, 0) := by
  induction reqs with
  | nil => rfl
  | cons r rest ih =>
      have h1 : r.1 < e.expires := h r (List.mem_cons_self r rest)
      have h2 := ih (fun x hx => h x (List.mem_cons_of_mem r hx))
      simp [delayRun, delayStep_hit e r.1 r.2 h1, h2]

/-- The timetable-cache step reports an error only by propagating the fetch's
own thrown error. -/
theorem timetableStepE_error (cache : List (String × TimetableEntry))
    (key : String) (now : Int) (fetch : Except String TimetableResp)
    (m : String) (h : timetableStepE cache key now fetch = .error m) :
    fetch = .error m := by
  rw [timetableStepE] at h
  have hmiss : timetableMiss cache key now fetch = .error m → fetch = .error m := by
    intro h2
    cases fetch with
    | error m2 =>
        simp [timetableMiss] at h2
        rw [h2]
    | ok d => simp [timetableMiss] at h2
  split at h
  · split at h
    · simp at h
    · exact hmiss h
  · exact hmiss h

/-! ## Claims -/

/-- Claim C1: while the delay cache holds an entry with `now < expires`, the
handler serves the cached delay map with no upstream TrainLiveBoard call;
consequently a cold-start population at time `p` followed by any 99 further
requests arriving before `p + DELAY_CACHE_MIN_TTL` makes exactly one upstream
call over the 100 requests. -/
theorem C1_warm_hit_single_upstream_call :
    (∀ (e : DelayEntry) (now : Int) (sb : ServerBehavior),
        now < e.expires →
        delayStep (some e) now sb = (e.data, some e, false))
    ∧ ∀ (p : Int) (body : LiveBoardResp) (lm : Option String)
        (reqs : List (Int × ServerBehavior)),
        (∀ x ∈ reqs, x.1 < p + DELAY_CACHE_MIN_TTL) → reqs.length = 99 →
        (delayRun none ((p, ServerBehavior.okResp body lm) :: reqs)).2 = 1 := by
  constructor
  · exact fun e now sb h => delayStep_hit e now sb h
  · intro p body lm reqs hmem _hlen
    have hstep : delayStep none p (.okResp body lm)
        = (buildDelayMap (body.TrainLiveBoards.getD (body.TrainLiveBoardList.getD [])),
           some ⟨buildDelayMap (body.TrainLiveBoards.getD (body.TrainLiveBoardList.getD [])),
                 lm, p + DELAY_CACHE_MIN_TTL⟩, true) := by
      simp [delayStep, delayFetch, fetchTDXWithCache, delayIfModHeader, jsStrOrNone,
        jsTruthy]
    have hrest := delayRun_hits reqs
      ⟨buildDelayMap (body.TrainLiveBoards.getD (body.TrainLiveBoardList.getD [])),
       lm, p + DELAY_CACHE_MIN_TTL⟩ hmem
    simp [delayRun, hstep, hrest]

/-- Witness for C1 at concrete inputs: a population at time 0 followed by 99
requests at time 1 yields exactly one upstream call, and a warm hit serves
the cached map. -/
theorem C1_witness :
    delayStep (some ⟨[("100", 2)], some "Mon", 10⟩) 5 (.throwErr "x")
      = ([("100", 2)], some ⟨[("100", 2)], some "Mon", 10⟩, false)
    ∧ (delayRun none ((0, ServerBehavior.okResp ⟨some [], none⟩ none)
        :: List.replicate 99 (1, ServerBehavior.throwErr "x"))).2 = 1 :=
  ⟨C1_warm_hit_single_upstream_call.1 ⟨[("100", 2)], some "Mon", 10⟩ 5
      (.throwErr "x") (by decide),
   C1_warm_hit_single_upstream_call.2 0 ⟨some [], none⟩ none
      (List.replicate 99 (1, ServerBehavior.throwErr "x"))
      (by decide) (by decide)⟩

/-- Claim C2: a request at or after the delay cache's expiry whose conditional
fetch reports 304 leaves the stored map and `lastModified` marker unchanged,
advances only `expires` to `now + DELAY_CACHE_MIN_TTL`, and serves the
unchanged map; the conditional fetch carries `If-Modified-Since` equal to the
stored marker whenever the marker is a nonempty string. -/
theorem C2_notModified_extends_ttl_only :
    ∀ (e : DelayEntry) (now : Int), e.expires ≤ now →
      delayStep (some e) now ServerBehavior.notModified304
        = (e.data, some ⟨e.data, e.lastModified, now + DELAY_CACHE_MIN_TTL⟩, true)
      ∧ ∀ s : String, e.lastModified = some s → s ≠ "" →
          delayIfModHeader (some e) = some s := by
  intro e now h
  obtain ⟨d, lm, ex⟩ := e
  simp only at h
  constructor
  · simp [delayStep, not_lt.mpr h, delayFetch, fetchTDXWithCache]
  · intro s hs hne
    simp only at hs
    subst hs
    simp [delayIfModHeader, jsStrOrNone, jsTruthy, hne]

/-- Witness for C2: a 304 at time 7 on an entry expired at 5 extends only the
expiry, and the revalidation header echoes the stored marker. -/
theorem C2_witness :
    delayStep (some ⟨[("100", 2)], some "Mon", 5⟩) 7 ServerBehavior.notModified304
      = ([("100", 2)],
         some ⟨[("100", 2)], some "Mon", 7 + DELAY_CACHE_MIN_TTL⟩, true)
    ∧ delayIfModHeader (some ⟨[("100", 2)], some "Mon", 5⟩) = some "Mon" :=
  ⟨(C2_notModified_extends_ttl_only ⟨[("100", 2)], some "Mon", 5⟩ 7 (by decide)).1,
   (C2_notModified_extends_ttl_only ⟨[("100", 2)], some "Mon", 5⟩ 7 (by decide)).2
      "Mon" rfl (by decide)⟩

/-- Claim C3: if the revalidation call throws, the delay cache entry is left
entirely unchanged (in particular `expires` is not extended, so any later
request also attempts the upstream call), and the caller is served the stale
cached map — or an empty map when no entry exists. -/
theorem C3_failure_keeps_cache_and_retries :
    ∀ (m : String) (now : Int),
      (∀ e : DelayEntry, e.expires ≤ now →
        delayStep (some e) now (ServerBehavior.throwErr m) = (e.data, some e, true)
        ∧ ∀ (now2 : Int) (sb2 : ServerBehavior), now ≤ now2 →
            (delayStep (some e) now2 sb2).2.2 = true)
      ∧ delayStep none now (ServerBehavior.throwErr m) = ([], none, true) := by
  intro m now
  constructor
  · intro e h
    constructor
    · obtain ⟨d, lm, ex⟩ := e
      simp only at h
      simp [delayStep, not_lt.mpr h, delayFetch, fetchTDXWithCache]
    · intro now2 sb2 h2
      have hnot : ¬ now2 < e.expires := not_lt.mpr (le_trans h h2)
      simp [delayStep, hnot, delayFetch_called]
  · simp [delayStep, delayFetch, fetchTDXWithCache]

/-- Witness for C3: a failed revalidation at time 12 on an entry expired at 10
leaves it unchanged, a retry at time 13 still calls upstream, and a cold-cache
failure serves the empty map. -/
theorem C3_witness :
    delayStep (some ⟨[("100", 2)], some "Mon", 10⟩) 12 (.throwErr "boom")
      = ([("100", 2)], some ⟨[("100", 2)], some "Mon", 10⟩, true)
    ∧ (delayStep (some ⟨[("100", 2)], some "Mon", 10⟩) 13 (.throwErr "again")).2.2
        = true
    ∧ delayStep none 12 (.throwErr "boom") = ([], none, true) :=
  ⟨((C3_failure_keeps_cache_and_retries "boom" 12).1
      ⟨[("100", 2)], some "Mon", 10⟩ (by decide)).1,
   ((C3_failure_keeps_cache_and_retries "boom" 12).1
      ⟨[("100", 2)], some "Mon", 10⟩ (by decide)).2 13 (.throwErr "again")
      (by decide),
   (C3_failure_keeps_cache_and_retries "boom" 12).2⟩

/-- Claim C10: across every update the schedule handler performs on the delay
cache, the entry's expiry never decreases: whenever a step turns an existing
entry into a (possibly different) entry, the new expiry is at least the old
one. -/
theorem C10_expiry_monotone :
    ∀ (e : DelayEntry) (now : Int) (sb : ServerBehavior) (e2 : DelayEntry),
      (delayStep (some e) now sb).2.1 = some e2 → e.expires ≤ e2.expires := by
  intro e now sb e2 h
  by_cases hlt : now < e.expires
  · rw [delayStep_hit e now sb hlt] at h
    simp at h
    subst h
    exact le_refl _
  · have hle : e.expires ≤ now := not_lt.mp hlt
    have hmin : (0 : Int) ≤ DELAY_CACHE_MIN_TTL := by decide
    simp only [delayStep, if_neg hlt] at h
    cases sb with
    | throwErr m =>
        simp [delayFetch, fetchTDXWithCache] at h
        subst h
        exact le_refl _
    | notModified304 =>
        simp [delayFetch, fetchTDXWithCache] at h
        rw [← h]
        simp only
        omega
    | okResp body lm =>
        simp [delayFetch, fetchTDXWithCache] at h
        rw [← h]
        simp only
        omega

/-- Witness for C10: a 304 extension at time 12 of an entry expired at 10
yields an expiry of `12 + DELAY_CACHE_MIN_TTL`, which is at least 10. -/
theorem C10_witness :
    (⟨[("100", 2)], some "Mon", 10⟩ : DelayEntry).expires
      ≤ (⟨[("100", 2)], some "Mon", 12 + DELAY_CACHE_MIN_TTL⟩ : DelayEntry).expires :=
  C10_expiry_monotone ⟨[("100", 2)], some "Mon", 10⟩ 12 .notModified304
    ⟨[("100", 2)], some "Mon", 12 + DELAY_CACHE_MIN_TTL⟩ (by decide)

/-- Claim C4: `getAccessToken` called strictly before the stored token's
expiry returns the cached token unchanged with no network call; called at or
after the expiry, with credentials configured, it performs the exchange and
on success stores the new token with expiry `now + expires_in * 1000 - 60000`
and returns it. -/
theorem C4_token_hit_and_renewal :
    (∀ (cid cs : Option String) (tex : TokenExchange) (st : TokenState)
        (t : String) (now : Int),
        st.cachedToken = some t → t ≠ "" → now < st.tokenExpiresAt →
        getAccessToken cid cs tex now st = (some t, st, false))
    ∧ ∀ (cid cs : Option String) (st : TokenState) (tok : String)
        (expires_in now : Int),
        st.tokenExpiresAt ≤ now → jsTruthy cid = true → jsTruthy cs = true →
        getAccessToken cid cs (.ok tok expires_in) now st
          = (some tok, ⟨some tok, now + expires_in * 1000 - 60000⟩, true) := by
  constructor
  · intro cid cs tex st t now hct hne hlt
    obtain ⟨ct, ex⟩ := st
    simp only at hct hlt
    subst hct
    simp [getAccessToken, jsTruthy, hne, hlt]
  · intro cid cs st tok expires_in now hle hcid hcs
    have hnot : ¬ now < st.tokenExpiresAt := not_lt.mpr hle
    simp [getAccessToken, hnot, hcid, hcs]

/-- Witness for C4: a hit at time 49 on a token expiring at 50, and a renewal
at time 50 storing expiry `50 + 1800 * 1000 - 60000`. -/
theorem C4_witness :
    getAccessToken (some "id") (some "secret") (.ok "new" 1800) 49
        ⟨some "old", 50⟩ = (some "old", ⟨some "old", 50⟩, false)
    ∧ getAccessToken (some "id") (some "secret") (.ok "new" 1800) 50
        ⟨some "old", 50⟩
        = (some "new", ⟨some "new", 50 + 1800 * 1000 - 60000⟩, true) :=
  ⟨C4_token_hit_and_renewal.1 (some "id") (some "secret") (.ok "new" 1800)
      ⟨some "old", 50⟩ "old" 49 rfl (by decide) (by decide),
   C4_token_hit_and_renewal.2 (some "id") (some "secret") ⟨some "old", 50⟩
      "new" 1800 50 (by decide) (by decide) (by decide)⟩

/-- Claim C5: for the timetable cache (keyed by resolved upstream path) and
the single-entry stations cache, an entry populated at `p` (expiry `p + ttl`)
is a hit at `p + ttl - 1` — served without invoking the fetch — and a miss at
`p + ttl + 1`, which invokes exactly one fetch and stores the result with
expiry `now + ttl`. -/
theorem C5_ttl_hit_and_miss :
    (∀ (cache : List (String × TimetableEntry)) (key : String)
        (v : TimetableResp) (p : Int) (fetch : Except String TimetableResp)
        (f : TimetableResp),
        cache.lookup key = some ⟨v, p + TIMETABLE_CACHE_TTL⟩ →
        timetableStepE cache key (p + TIMETABLE_CACHE_TTL - 1) fetch
          = .ok (v, cache, false)
        ∧ timetableStepE cache key (p + TIMETABLE_CACHE_TTL + 1) (.ok f)
          = .ok (f, jsMapSet cache key
              ⟨f, (p + TIMETABLE_CACHE_TTL + 1) + TIMETABLE_CACHE_TTL⟩, true))
    ∧ ∀ (v : List TDXStation) (p : Int)
        (fetch : Except String (List TDXStation)) (f : List TDXStation),
        stationsHandler (some ⟨v, p + STATIONS_CACHE_TTL⟩)
          (p + STATIONS_CACHE_TTL - 1) fetch
          = (.ok (transformStations v), some ⟨v, p + STATIONS_CACHE_TTL⟩, [], false)
        ∧ stationsHandler (some ⟨v, p + STATIONS_CACHE_TTL⟩)
            (p + STATIONS_CACHE_TTL + 1) (.ok f)
            = (.ok (transformStations f),
               some ⟨f, (p + STATIONS_CACHE_TTL + 1) + STATIONS_CACHE_TTL⟩, [], true) := by
  constructor
  · intro cache key v p fetch f hlook
    have hhit : p + TIMETABLE_CACHE_TTL - 1 < p + TIMETABLE_CACHE_TTL := by omega
    have hmiss : ¬ p + TIMETABLE_CACHE_TTL + 1 < p + TIMETABLE_CACHE_TTL := by omega
    constructor
    · rw [timetableStepE, hlook]
      simp [hhit]
    · rw [timetableStepE, hlook]
      simp [hmiss, timetableMiss]
  · intro v p fetch f
    have hhit : p + STATIONS_CACHE_TTL - 1 < p + STATIONS_CACHE_TTL := by omega
    have hmiss : ¬ p + STATIONS_CACHE_TTL + 1 < p + STATIONS_CACHE_TTL := by omega
    constructor
    · simp [stationsHandler, hhit]
    · simp [stationsHandler, hmiss]

/-- Witness for C5 at concrete inputs: the timetable slot `"k"` populated at 0
hits at `TIMETABLE_CACHE_TTL - 1` and misses at `TIMETABLE_CACHE_TTL + 1`. -/
theorem C5_witness :
    timetableStepE [("k", ⟨⟨none⟩, 0 + TIMETABLE_CACHE_TTL⟩)] "k"
        (0 + TIMETABLE_CACHE_TTL - 1) (.ok ⟨some []⟩)
      = .ok (⟨none⟩, [("k", ⟨⟨none⟩, 0 + TIMETABLE_CACHE_TTL⟩)], false)
    ∧ stationsHandler (some ⟨[], 0 + STATIONS_CACHE_TTL⟩)
        (0 + STATIONS_CACHE_TTL + 1) (.ok [])
      = (.ok (transformStations []),
         some ⟨[], (0 + STATIONS_CACHE_TTL + 1) + STATIONS_CACHE_TTL⟩, [], true) :=
  ⟨(C5_ttl_hit_and_miss.1 [("k", ⟨⟨none⟩, 0 + TIMETABLE_CACHE_TTL⟩)] "k"
      ⟨none⟩ 0 (.ok ⟨some []⟩) ⟨some []⟩ (by decide)).1,
   (C5_ttl_hit_and_miss.2 [] 0 (.ok []) []).2⟩

/-- Claim C6, counterexample: for origin `"1000"` and dest `"1008"`, the train
`exTrainC6` (stops `1008, 1000, 1008`) satisfies the claim's criterion — its
stop list contains a `1000` stop and a `1008` stop occurring strictly later —
yet the handler excludes it, because the code compares the indices of the
FIRST stop matching each station and the first `1008` stop precedes the
first `1000` stop. -/
theorem C6_counterexample_duplicate_station :
    specTrainIncluded "1000" "1008" exTrainC6.StopTimes = true
    ∧ scheduleTrains "1000" "1008" [] [exTrainC6] = [] := by
  constructor
  · decide
  · decide

/-- Claim C6 as amended: a train appears in the `trains` array iff its stop
list has a stop matching origin and a stop matching dest AND the first stop
matching origin occurs strictly before the first stop matching dest; and the
`trains` array contains exactly the (transformed) trains so selected. -/
theorem C6_first_occurrence_filter :
    (∀ (o d : String) (dm : DelayMap) (t : TDXFullTimetable),
      (transformTrain o d dm t).isSome = true ↔
        ((t.StopTimes.find? (fun s => s.StationID == o)).isSome = true
         ∧ (t.StopTimes.find? (fun s => s.StationID == d)).isSome = true
         ∧ t.StopTimes.findIdx (fun s => s.StationID == o)
             < t.StopTimes.findIdx (fun s => s.StationID == d)))
    ∧ ∀ (o d : String) (dm : DelayMap) (tts : List TDXFullTimetable)
        (r : AppTrainInfo),
        r ∈ scheduleTrains o d dm tts ↔
          ∃ t, t ∈ tts ∧ transformTrain o d dm t = some r := by
  constructor
  · intro o d dm t
    unfold transformTrain
    cases h1 : t.StopTimes.find? (fun s => s.StationID == o) with
    | none => simp [h1]
    | some os =>
        cases h2 : t.StopTimes.find? (fun s => s.StationID == d) with
        | none => simp [h1, h2]
        | some ds =>
            simp only [h1, h2, Option.isSome_some, true_and]
            by_cases hle : t.StopTimes.findIdx (fun s => s.StationID == d)
                ≤ t.StopTimes.findIdx (fun s => s.StationID == o)
            · simp [hle]
            · simp [hle]
              omega
  · intro o d dm tts r
    unfold scheduleTrains
    rw [(List.perm_insertionSort (fun a b => a.departureTime ≤ b.departureTime)
          (tts.filterMap (transformTrain o d dm))).mem_iff]
    exact List.mem_filterMap

/-- Claim C7, counterexample: the request `?origin=1000&dest=1008&date=` has a
date parameter that is present and not of the form YYYY-MM-DD, yet the
handler does not respond 400: the empty string is JS-falsy, so the date check
is skipped, the date defaults to today, both caches are populated and two
upstream calls are made. -/
theorem C7_counterexample_empty_date :
    scheduleHandler ⟨some "1000", some "1008", some ""⟩ ⟨[], none⟩
        ⟨"production", "2026-10-11", .ok ⟨some []⟩, .okResp ⟨some [], none⟩ none⟩ 0
      = (.ok "2026-10-11" "1000" "1008" [],
         ⟨[("v3/Rail/TRA/DailyTrainTimetable/Today",
            ⟨⟨some []⟩, TIMETABLE_CACHE_TTL⟩)],
          some ⟨[], none, DELAY_CACHE_MIN_TTL⟩⟩,
         [("Cache-Control", "s-maxage=60, stale-while-revalidate=300")], 2) := by
  decide

/-- Claim C7 as amended: a request whose origin or dest parameter is present
but fails the station-ID format, or whose date parameter is present and
NONEMPTY but not of the form YYYY-MM-DD, is answered 400 with all cache state
unchanged, no header set and zero upstream calls (an empty-string date
parameter is instead treated as absent and defaults to today). -/
theorem C7_validation_rejects_before_caches :
    ∀ (req : SchedReq) (st : SchedState) (env : SchedEnv) (now : Int),
      ((∃ s, req.origin = some s ∧ isValidStationId s = false)
       ∨ (∃ s, req.dest = some s ∧ isValidStationId s = false)
       ∨ (∃ s, req.date = some s ∧ s ≠ "" ∧ isValidDate s = false)) →
      ∃ msg, scheduleHandler req st env now = (.badRequest msg, st, [], 0) := by
  intro req st env now hbad
  have hv : ∃ msg, schedValidate req = some msg := by
    by_cases h1 : ¬ jsTruthy req.origin = true ∨ ¬ jsTruthy req.dest = true
    · exact ⟨_, by rw [schedValidate, if_pos h1]⟩
    · by_cases h2 : ¬ isValidStationId (req.origin.getD "") = true
          ∨ ¬ isValidStationId (req.dest.getD "") = true
      · exact ⟨_, by rw [schedValidate, if_neg h1, if_pos h2]⟩
      · have h3 : jsTruthy req.date = true
            ∧ ¬ isValidDate (req.date.getD "") = true := by
          rw [not_or] at h1 h2
          obtain ⟨ho, hd⟩ := h1
          obtain ⟨hvo, hvd⟩ := h2
          rcases hbad with ⟨s, hs, hinv⟩ | ⟨s, hs, hinv⟩ | ⟨s, hs, hne, hinv⟩
          · exact absurd (by rw [hs]; simp [hinv]) hvo
          · exact absurd (by rw [hs]; simp [hinv]) hvd
          · constructor
            · rw [hs]
              simp [jsTruthy, hne]
            · rw [hs]
              simp [hinv]
        exact ⟨_, by rw [schedValidate, if_neg h1, if_neg h2, if_pos h3]⟩
  obtain ⟨msg, hmsg⟩ := hv
  exact ⟨msg, by rw [scheduleHandler, hmsg]⟩

/-- Witness for C7 (amended): `origin = "bad id"` (contains a space) is
rejected with a 400 and untouched state. -/
theorem C7_witness :
    ∃ msg, scheduleHandler ⟨some "bad id", some "1008", none⟩ ⟨[], none⟩
        ⟨"production", "2026-10-11", .ok ⟨some []⟩, .notModified304⟩ 0
      = (.badRequest msg, ⟨[], none⟩, [], 0) :=
  C7_validation_rejects_before_caches ⟨some "bad id", some "1008", none⟩
    ⟨[], none⟩ ⟨"production", "2026-10-11", .ok ⟨some []⟩, .notModified304⟩ 0
    (Or.inl ⟨"bad id", rfl, by decide⟩)

/-- Claim C8, counterexample: on an upstream failure the /stations handler
responds 500 with the thrown error's message verbatim — here the upstream
diagnostic produced by `fetchTDX`, status line and response body included —
with no check of `NODE_ENV`; the claim's "generic message" does not hold for
this endpoint. -/
theorem C8_counterexample_stations_diagnostic_leak :
    stationsHandler none 0
        (.error "TDX API Error: 500 Internal Server Error - upstream body")
      = (.serverError "TDX API Error: 500 Internal Server Error - upstream body",
         none, [], true) := by
  decide

/-- Claim C8 as amended: the current /schedule handler responds 500 with the
fixed generic message whenever `NODE_ENV` is not `development`, and with the
thrown error's message when it is; the /stations handler instead responds 500
with the thrown error's message unconditionally, so upstream diagnostic
detail does reach its response body. -/
theorem C8_error_redaction :
    (∀ (req : SchedReq) (st : SchedState) (env : SchedEnv) (now : Int)
        (msg : String) (st2 : SchedState) (hd : List (String × String)) (c : Nat),
        env.nodeEnv ≠ "development" →
        scheduleHandler req st env now = (.serverError msg, st2, hd, c) →
        msg = "Failed to fetch schedule. Please try again.")
    ∧ (∀ (req : SchedReq) (st : SchedState) (env : SchedEnv) (now : Int)
        (msg : String) (st2 : SchedState) (hd : List (String × String)) (c : Nat)
        (e : String),
        env.nodeEnv = "development" → env.timetableFetch = .error e →
        scheduleHandler req st env now = (.serverError msg, st2, hd, c) →
        msg = e)
    ∧ (∀ (now : Int) (m : String),
        stationsHandler none now (.error m) = (.serverError m, none, [], true))
    ∧ ∀ (ent : StationsEntry) (now : Int) (m : String), ent.expires ≤ now →
        stationsHandler (some ent) now (.error m)
          = (.serverError m, some ent, [], true) := by
  refine ⟨?_, ?_, ?_, ?_⟩
  · intro req st env now msg st2 hd c hdev h
    rw [scheduleHandler] at h
    cases hv : schedValidate req with
    | some m0 =>
        rw [hv] at h
        simp at h
    | none =>
        rw [hv] at h
        cases ht : timetableStepE st.timetableCache (schedUrl req env) now
            env.timetableFetch with
        | error m =>
            rw [ht] at h
            have hne : (env.nodeEnv == "development") = false := by
              simp [hdev]
            simp [hne] at h
            exact h.1.symm
        | ok tres =>
            rw [ht] at h
            simp at h
  · intro req st env now msg st2 hd c e hdev hfetch h
    rw [scheduleHandler] at h
    cases hv : schedValidate req with
    | some m0 =>
        rw [hv] at h
        simp at h
    | none =>
        rw [hv] at h
        cases ht : timetableStepE st.timetableCache (schedUrl req env) now
            env.timetableFetch with
        | error m =>
            have hme : m = e := by
              have h2 := timetableStepE_error _ _ _ _ _ ht
              rw [hfetch] at h2
              exact (Except.error.inj h2).symm
            rw [ht] at h
            have hdv : (env.nodeEnv == "development") = true := by
              simp [hdev]
            simp [hdv] at h
            rw [← h.1, hme]
        | ok tres =>
            rw [ht] at h
            simp at h
  · intro now m
    rfl
  · intro ent now m hle
    simp [stationsHandler, not_lt.mpr hle]

/-- Witness for C8 (amended) at concrete inputs: a production-mode schedule
failure yields the generic message, a development-mode one echoes the thrown
message, and the stations handler echoes it in both branches. -/
theorem C8_witness :
    "Failed to fetch schedule. Please try again."
      = "Failed to fetch schedule. Please try again."
    ∧ ("boom" : String) = "boom"
    ∧ stationsHandler none 3 (.error "boom") = (.serverError "boom", none, [], true)
    ∧ stationsHandler (some ⟨[], 2⟩) 3 (.error "boom")
        = (.serverError "boom", some ⟨[], 2⟩, [], true) :=
  ⟨C8_error_redaction.1 ⟨some "1000", some "1008", none⟩ ⟨[], none⟩
      ⟨"production", "2026-10-11", .error "boom", .notModified304⟩ 0
      "Failed to fetch schedule. Please try again." ⟨[], none⟩ [] 1
      (by decide) (by decide),
   C8_error_redaction.2.1 ⟨some "1000", some "1008", none⟩ ⟨[], none⟩
      ⟨"development", "2026-10-11", .error "boom", .notModified304⟩ 0
      "boom" ⟨[], none⟩ [] 1 "boom" rfl rfl (by decide),
   C8_error_redaction.2.2.1 3 "boom",
   C8_error_redaction.2.2.2 ⟨[], 2⟩ 3 "boom" (by decide)⟩

/-- Claim C9: the /stations handler under `api/stations.ts` sets no header at
all — in particular no `Cache-Control` with max-age/stale-while-revalidate —
on any response, including a successful 200; the repository's own caching
documents state the endpoint sends
`Cache-Control: s-maxage=3600, stale-while-revalidate=86400`. -/
theorem C9_stations_sends_no_cache_header :
    stationsHandler none 0 (.ok [⟨"1000", "Taipei", "Taipei"⟩])
      = (.ok [⟨"1000", "Taipei", "Taipei"⟩],
         some ⟨[⟨"1000", "Taipei", "Taipei"⟩], 0 + STATIONS_CACHE_TTL⟩, [], true)
    ∧ ∀ (cache : Option StationsEntry) (now : Int)
        (fetch : Except String (List TDXStation)),
        (stationsHandler cache now fetch).2.2.1 = [] := by
  constructor
  · decide
  · intro cache now fetch
    cases cache with
    | none => cases fetch <;> rfl
    | some e =>
        by_cases hlt : now < e.expires
        · simp [stationsHandler, hlt]
        · simp [stationsHandler, hlt]
          cases fetch <;> rfl

end OnTrack
